import Mathlib

/-!
Shallow embedding of the authentication core of the Fresher Hub backend
(`src/auth.js`, the Supabase-backed server): in-memory OTP and session
registries (JavaScript `Map` objects modelled as association lists with
`Map.set` / `Map.get` / `Map.delete` semantics), the request handlers
`send-otp`, `verify-otp`, `reset-password`, `login`, `validate-session`,
`logout`, and the periodic expiry sweep.

External collaborators are modelled as parameters of the handlers:
the Supabase user lookup and password update outcomes, the bcrypt
comparison, the nodemailer transporter configuration and delivery
outcome, and the random values (`Math.random`-derived OTP codes and
session-id suffixes) consumed by a handler. Timestamps are `Nat`
milliseconds (`Date.now()`). Absent request-body fields are modelled by
the empty string, the only falsy value a string field can take in the
JavaScript truthiness guards (`if (!email) ...`).
-/

namespace FresherHub

/-- A JavaScript `Map` with string keys, as an association list in insertion
order. `Map` keys are unique; operations below preserve key-uniqueness,
stated as `nodupKeys`. -/
abbrev JsMap (α : Type) : Type := List (String × α)

/-- `Map.get(k)`: the value of the first (and, under `nodupKeys`, only)
entry with key `k`. -/
def jsGet {α : Type} (m : JsMap α) (k : String) : Option α :=
  (m.find? (fun p => p.1 == k)).map Prod.snd

/-- `Map.set(k, v)`: replace the entry with key `k` in place if present,
else append a new entry. -/
def jsSet {α : Type} (m : JsMap α) (k : String) (v : α) : JsMap α :=
  if (m.find? (fun p => p.1 == k)).isSome then
    m.map (fun p => if p.1 == k then (k, v) else p)
  else
    m ++ [(k, v)]

/-- `Map.delete(k)`: remove the entry with key `k`, if any. -/
def jsDelete {α : Type} (m : JsMap α) (k : String) : JsMap α :=
  m.filter (fun p => p.1 != k)

/-- Key-uniqueness invariant of a JavaScript `Map`. -/
def nodupKeys {α : Type} (m : JsMap α) : Prop :=
  (m.map Prod.fst).Nodup

/-- Number of entries with key `k`. -/
def countKey {α : Type} (m : JsMap α) (k : String) : Nat :=
  m.countP (fun p => p.1 == k)

theorem jsGet_jsDelete_self {α : Type} (m : JsMap α) (k : String) :
    jsGet (jsDelete m k) k = none := by
  unfold jsGet jsDelete
  rw [List.find?_eq_none.2, Option.map_none']
  intro p hp
  have h := List.of_mem_filter hp
  simp only [bne_iff_ne, ne_eq, decide_eq_true_eq] at h
  simp only [beq_iff_eq]
  exact fun hc => h (by exact_mod_cast hc)

theorem jsGet_jsSet_self {α : Type} (m : JsMap α) (k : String) (v : α) :
    jsGet (jsSet m k v) k = some v := by
  unfold jsGet jsSet
  by_cases h : (m.find? (fun p => p.1 == k)).isSome
  · rw [if_pos h]
    induction m with
    | nil => simp at h
    | cons a t ih =>
      by_cases ha : a.1 = k
      · have ha' : (a.1 == k) = true := by simp [ha]
        simp only [List.map_cons, ha', if_true]
        rw [List.find?_cons_of_pos _ (by simp)]
        rfl
      · have ha' : (a.1 == k) = false := by simp [ha]
        simp only [List.map_cons, ha', if_false]
        rw [List.find?_cons_of_neg _ (by simp [ha])]
        rw [List.find?_cons_of_neg _ (by simp [ha])] at h
        exact ih h
  · rw [if_neg h]
    rw [Option.not_isSome_iff_eq_none] at h
    rw [List.find?_append, h]
    simp [List.find?_cons]

theorem jsGet_isSome_iff {α : Type} (m : JsMap α) (k : String) :
    (jsGet m k).isSome ↔ (m.find? (fun p => p.1 == k)).isSome := by
  unfold jsGet
  cases m.find? (fun p => p.1 == k) <;> simp

theorem countKey_eq_zero_of_not_mem {α : Type} (m : JsMap α) (k : String)
    (h : k ∉ m.map Prod.fst) : countKey m k = 0 := by
  unfold countKey
  rw [List.countP_eq_zero]
  intro p hp
  simp only [beq_iff_eq]
  exact fun hc => h (hc ▸ List.mem_map_of_mem Prod.fst hp)

theorem countKey_le_one {α : Type} (m : JsMap α) (k : String)
    (h : nodupKeys m) : countKey m k ≤ 1 := by
  induction m with
  | nil => simp [countKey]
  | cons a t ih =>
    unfold nodupKeys at h
    simp only [List.map_cons, List.nodup_cons] at h
    unfold countKey
    rw [List.countP_cons]
    by_cases ha : a.1 = k
    · have : countKey t k = 0 := countKey_eq_zero_of_not_mem t k (ha ▸ h.1)
      unfold countKey at this
      simp [this, ha]
    · have : (a.1 == k) = false := by simp [ha]
      simpa [this] using ih h.2

theorem countKey_pos_of_get {α : Type} (m : JsMap α) (k : String)
    (h : (jsGet m k).isSome) : 1 ≤ countKey m k := by
  rw [jsGet_isSome_iff] at h
  rw [List.find?_isSome] at h
  obtain ⟨p, hp, hk⟩ := h
  unfold countKey
  rw [Nat.one_le_iff_ne_zero]
  intro hzero
  rw [List.countP_eq_zero] at hzero
  exact absurd hk (by simpa using hzero p hp)

theorem nodupKeys_jsSet {α : Type} (m : JsMap α) (k : String) (v : α)
    (h : nodupKeys m) : nodupKeys (jsSet m k v) := by
  unfold jsSet
  by_cases hf : (m.find? (fun p => p.1 == k)).isSome
  · rw [if_pos hf]
    unfold nodupKeys
    have : (m.map (fun p => if p.1 == k then (k, v) else p)).map Prod.fst
        = m.map Prod.fst := by
      rw [List.map_map]
      apply List.map_congr_left
      intro p _
      by_cases hp : p.1 = k
      · simp [hp]
      · simp [hp]
    rw [this]
    exact h
  · rw [if_neg hf]
    unfold nodupKeys
    rw [List.map_append]
    rw [Option.not_isSome_iff_eq_none, List.find?_eq_none] at hf
    simp only [List.map_cons, List.map_nil]
    rw [List.nodup_append]
    refine ⟨h, List.nodup_singleton k, ?_⟩
    intro x hx
    simp only [List.mem_singleton]
    intro hxk
    obtain ⟨p, hp, rfl⟩ := List.mem_map.1 hx
    have := hf p hp
    simp only [beq_iff_eq] at this
    exact absurd hxk (by simpa using this)

theorem jsDelete_idem {α : Type} (m : JsMap α) (k : String) :
    jsDelete (jsDelete m k) k = jsDelete m k := by
  unfold jsDelete
  rw [List.filter_filter]
  apply List.filter_congr
  intro p _
  exact Bool.and_self _

theorem countKey_jsSet_self {α : Type} (m : JsMap α) (k : String) (v : α)
    (h : nodupKeys m) : countKey (jsSet m k v) k = 1 := by
  refine le_antisymm (countKey_le_one _ _ (nodupKeys_jsSet m k v h)) ?_
  apply countKey_pos_of_get
  rw [jsGet_jsSet_self]
  rfl

/-- `String.prototype.toLowerCase()`, the email normalization of every
handler: per-character lowercasing. (Defined by a plain character map so
that concrete instances reduce inside the kernel; `String.toLower` is the
same map expressed through `String.mapAux`.) -/
def jsToLower (s : String) : String := ⟨s.data.map Char.toLower⟩

/-! ## Data model (`src/auth.js` constants and stored records) -/

/-- `const OTP_EXPIRY_MINUTES = 10`. -/
def OTP_EXPIRY_MINUTES : Nat := 10

/-- `const SESSION_EXPIRY_HOURS = 24`. -/
def SESSION_EXPIRY_HOURS : Nat := 24

/-- Value stored in `otpStore`: `{ otp, expiresAt }` with `expiresAt` in
`Date.now()` milliseconds. -/
structure OtpEntry where
  otp : String
  expiresAt : Nat
  deriving Repr, DecidableEq

/-- `const otpStore = new Map()`, keyed by normalized (lowercased) email. -/
abbrev OtpStore : Type := JsMap OtpEntry

/-- Value stored in `sessions`: `{ userId, email, expires, role }`. -/
structure Session where
  userId : Nat
  email : String
  expires : Nat
  role : String
  deriving Repr, DecidableEq

/-- `const sessions = new Map()`, keyed by the generated session id. -/
abbrev SessionStore : Type := JsMap Session

/-- Row of the Supabase `Registered` table used by the handlers. The
`password` field holds the bcrypt hash (column `Password`). -/
structure UserRecord where
  id : Nat
  fullName : String
  email : String
  password : String
  role : String
  deriving Repr, DecidableEq

/-! ## `/api/verify-otp` handler -/

/-- Response of `/api/verify-otp`: HTTP status plus the JSON body fields
the handler sets. -/
structure VerifyOtpResponse where
  status : Nat
  success : Bool
  error : Option String
  message : Option String
  deriving Repr, DecidableEq

/-- The `/api/verify-otp` handler. Inputs: the request-body `email` and
`otp` fields (empty string = absent/falsy), `now = Date.now()`, and the
current `otpStore`. Returns the response and the updated `otpStore`. -/
def verifyOtp (email otp : String) (now : Nat) (store : OtpStore) :
    VerifyOtpResponse × OtpStore :=
  if email = "" ∨ otp = "" then
    (⟨400, false, some "Email and OTP are required", none⟩, store)
  else
    let normalizedEmail := (jsToLower email)
    match jsGet store normalizedEmail with
    | none =>
        (⟨400, false, some "No OTP found. Please request a new one.", none⟩, store)
    | some storedData =>
        if storedData.expiresAt < now then
          (⟨400, false, some "OTP has expired. Please request a new one.", none⟩,
            jsDelete store normalizedEmail)
        else if storedData.otp ≠ otp then
          (⟨400, false, some "Invalid OTP. Please try again.", none⟩, store)
        else
          (⟨200, true, none, some "OTP verified successfully"⟩,
            jsDelete store normalizedEmail)

/-! ## `/api/reset-password` handler -/

/-- Response of `/api/reset-password`. -/
structure ResetPasswordResponse where
  status : Nat
  success : Bool
  error : Option String
  message : Option String
  deriving Repr, DecidableEq

/-- The `/api/reset-password` handler. The Supabase collaborator outcomes
are parameters: `userExists` is whether the `Registered` lookup returned a
row, `updateOk` is whether the `Password` column update succeeded. -/
def resetPassword (email otp newPassword : String) (now : Nat)
    (userExists updateOk : Bool) (store : OtpStore) :
    ResetPasswordResponse × OtpStore :=
  if email = "" ∨ otp = "" ∨ newPassword = "" then
    (⟨400, false, some "Email, OTP, and new password are required", none⟩, store)
  else
    let normalizedEmail := (jsToLower email)
    match jsGet store normalizedEmail with
    | none =>
        (⟨400, false, some "Invalid OTP", none⟩, store)
    | some storedData =>
        if storedData.otp ≠ otp then
          (⟨400, false, some "Invalid OTP", none⟩, store)
        else if storedData.expiresAt < now then
          (⟨400, false, some "OTP has expired", none⟩, jsDelete store normalizedEmail)
        else if userExists = false then
          (⟨404, false, some "User not found", none⟩, store)
        else if updateOk = false then
          (⟨500, false, some "Failed to update password in database", none⟩, store)
        else
          (⟨200, true, none, some "Password reset successful"⟩,
            jsDelete store normalizedEmail)

/-! ## `/api/send-otp` handler -/

/-- Response of `/api/send-otp`. `otp` is present only in the mock-mode
body; `service` is `"Email"` or `"Mock"` on success. -/
structure SendOtpResponse where
  status : Nat
  success : Bool
  error : Option String
  message : Option String
  otp : Option String
  service : Option String
  deriving Repr, DecidableEq

/-- The `/api/send-otp` handler. `otpGen` is the random 6-digit code the
handler draws (`Math.floor(100000 + Math.random() * 900000).toString()`);
`userExists` is the Supabase lookup outcome; `transporterConfigured` is
whether the nodemailer transporter was created at startup; `deliveryOk` is
whether `transporter.sendMail` resolved (on rejection the catch falls
through to the mock response). -/
def sendOtp (email otpGen : String) (now : Nat)
    (userExists transporterConfigured deliveryOk : Bool) (store : OtpStore) :
    SendOtpResponse × OtpStore :=
  if email = "" then
    (⟨400, false, some "Email required", none, none, none⟩, store)
  else
    let normalizedEmail := (jsToLower email)
    if userExists = false then
      (⟨404, false, some "No account found with this email", none, none, none⟩, store)
    else
      let expiresAt := now + OTP_EXPIRY_MINUTES * 60 * 1000
      let store1 := jsSet store normalizedEmail ⟨otpGen, expiresAt⟩
      if transporterConfigured then
        if deliveryOk then
          (⟨200, true, none, some "OTP sent to your email", none, some "Email"⟩, store1)
        else
          (⟨200, true, none, some "OTP generated (mock mode)", some otpGen,
            some "Mock"⟩, store1)
      else
        (⟨200, true, none, some "OTP generated (mock mode)", some otpGen,
          some "Mock"⟩, store1)

/-! ## Session id generation, `/api/login`, `/api/validate-session`,
`/api/logout` -/

/-- `generateSessionId`: `'session_' + Date.now() + '_' +
Math.random().toString(36).substr(2, 9)`. The random suffix is a
parameter. -/
def generateSessionId (nowMs : Nat) (randSuffix : String) : String :=
  "session_" ++ toString nowMs ++ "_" ++ randSuffix

/-- Response of `/api/login`. On success the body carries the sanitized
user view plus `sessionId` and `expiresAt`. -/
structure LoginResponse where
  status : Nat
  success : Bool
  error : Option String
  message : Option String
  userId : Option Nat
  sessionId : Option String
  expiresAt : Option Nat
  deriving Repr, DecidableEq

/-- The `/api/login` handler. `lookup` is the Supabase `Registered` row for
the normalized email (`none` when the fetch errored or found no row);
`compare` is `bcrypt.compare`; `now = Date.now()`; `randSuffix` is the
random part of the generated session id. -/
def login (email password : String) (lookup : Option UserRecord)
    (compare : String → String → Bool) (now : Nat) (randSuffix : String)
    (sessions : SessionStore) : LoginResponse × SessionStore :=
  if email = "" ∨ password = "" then
    (⟨400, false, some "Email and password are required", none, none, none, none⟩,
      sessions)
  else
    let normalizedEmail := (jsToLower email)
    match lookup with
    | none =>
        (⟨401, false, some "Invalid email or password", none, none, none, none⟩,
          sessions)
    | some user =>
        if compare password user.password = false then
          (⟨401, false, some "Invalid email or password", none, none, none, none⟩,
            sessions)
        else
          let sessionId := generateSessionId now randSuffix
          let expiresAt := now + SESSION_EXPIRY_HOURS * 60 * 60 * 1000
          let sessions1 := jsSet sessions sessionId
            ⟨user.id, normalizedEmail, expiresAt, user.role⟩
          (⟨200, true, none, some "Login successful", some user.id,
            some sessionId, some expiresAt⟩, sessions1)

/-- Response of `/api/validate-session`. -/
structure ValidateSessionResponse where
  status : Nat
  success : Bool
  error : Option String
  userId : Option Nat
  email : Option String
  role : Option String
  sessionId : Option String
  expiresAt : Option Nat
  deriving Repr, DecidableEq

/-- The `/api/validate-session` handler. -/
def validateSession (sessionId : String) (now : Nat)
    (sessions : SessionStore) : ValidateSessionResponse × SessionStore :=
  if sessionId = "" then
    (⟨400, false, some "Session ID required", none, none, none, none, none⟩,
      sessions)
  else
    match jsGet sessions sessionId with
    | none =>
        (⟨401, false, some "Invalid session", none, none, none, none, none⟩,
          sessions)
    | some session =>
        if session.expires < now then
          (⟨401, false, some "Session expired", none, none, none, none, none⟩,
            jsDelete sessions sessionId)
        else
          (⟨200, true, none, some session.userId, some session.email,
            some session.role, some sessionId, some session.expires⟩, sessions)

/-- Response of `/api/logout`. -/
structure LogoutResponse where
  status : Nat
  success : Bool
  message : Option String
  deriving Repr, DecidableEq

/-- The `/api/logout` handler: `if (sessionId) sessions.delete(sessionId)`,
then an unconditional success response. -/
def logout (sessionId : String) (sessions : SessionStore) :
    LogoutResponse × SessionStore :=
  if sessionId = "" then
    (⟨200, true, some "Logged out successfully"⟩, sessions)
  else
    (⟨200, true, some "Logged out successfully"⟩, jsDelete sessions sessionId)

/-! ## Periodic reaper (`setInterval` sweep, every 60 s) -/

/-- Sweep of the OTP half of the interval task: delete every entry with
`now > data.expiresAt`. -/
def sweepOtps (now : Nat) (store : OtpStore) : OtpStore :=
  store.filter (fun p => !(p.2.expiresAt < now))

/-- Sweep of the session half of the interval task. -/
def sweepSessions (now : Nat) (sessions : SessionStore) : SessionStore :=
  sessions.filter (fun p => !(p.2.expires < now))

/-! ## Claim theorems -/

/-- C1: For every email and submitted code (both present), `verify-otp`
behaves as: no entry for the normalized email → "No OTP found" and the
store unchanged; entry with `expiresAt < now` → "OTP has expired" and the
entry deleted; unexpired entry with mismatching code → "Invalid OTP" and
the entry NOT deleted; matching code on an unexpired entry → success with
the entry deleted, so an immediate second verify with the same code
reports "No OTP found". -/
theorem C1_verifyOtp_semantics (email otp : String) (now : Nat)
    (store : OtpStore) (he : email ≠ "") (ho : otp ≠ "") :
    (jsGet store (jsToLower email) = none →
      verifyOtp email otp now store =
        (⟨400, false, some "No OTP found. Please request a new one.", none⟩,
          store)) ∧
    (∀ e : OtpEntry, jsGet store (jsToLower email) = some e →
      e.expiresAt < now →
      verifyOtp email otp now store =
        (⟨400, false, some "OTP has expired. Please request a new one.", none⟩,
          jsDelete store (jsToLower email))) ∧
    (∀ e : OtpEntry, jsGet store (jsToLower email) = some e →
      ¬ e.expiresAt < now → e.otp ≠ otp →
      verifyOtp email otp now store =
        (⟨400, false, some "Invalid OTP. Please try again.", none⟩, store)) ∧
    (∀ e : OtpEntry, jsGet store (jsToLower email) = some e →
      ¬ e.expiresAt < now → e.otp = otp →
      verifyOtp email otp now store =
        (⟨200, true, none, some "OTP verified successfully"⟩,
          jsDelete store (jsToLower email)) ∧
      (verifyOtp email otp now (verifyOtp email otp now store).2).1 =
        ⟨400, false, some "No OTP found. Please request a new one.", none⟩) := by
  have hguard : ¬ (email = "" ∨ otp = "") := by
    rintro (h | h)
    · exact he h
    · exact ho h
  refine ⟨?_, ?_, ?_, ?_⟩
  · intro hget
    simp [verifyOtp, hguard, hget]
  · intro e hget hexp
    simp [verifyOtp, hguard, hget, hexp]
  · intro e hget hexp hne
    simp [verifyOtp, hguard, hget, hexp, hne]
  · intro e hget hexp heq
    have h1 : verifyOtp email otp now store =
        (⟨200, true, none, some "OTP verified successfully"⟩,
          jsDelete store (jsToLower email)) := by
      simp [verifyOtp, hguard, hget, hexp, heq]
    refine ⟨h1, ?_⟩
    rw [h1]
    simp [verifyOtp, hguard, jsGet_jsDelete_self]

/-- Witness for C1 at a concrete matching, unexpired input. -/
theorem C1_verifyOtp_semantics_witness :
    verifyOtp "a@x.com" "123456" 5000 [("a@x.com", ⟨"123456", 9000⟩)] =
      (⟨200, true, none, some "OTP verified successfully"⟩,
        jsDelete [("a@x.com", ⟨"123456", 9000⟩)] (jsToLower "a@x.com")) ∧
    (verifyOtp "a@x.com" "123456" 5000
        (verifyOtp "a@x.com" "123456" 5000
          [("a@x.com", ⟨"123456", 9000⟩)]).2).1 =
      ⟨400, false, some "No OTP found. Please request a new one.", none⟩ :=
  (C1_verifyOtp_semantics "a@x.com" "123456" 5000
      [("a@x.com", ⟨"123456", 9000⟩)] (by decide) (by decide)).2.2.2
    ⟨"123456", 9000⟩ rfl (by decide) rfl

/-- C2: In `reset-password`, with a matching unexpired code and an existing
user, a failed CredentialStore update yields the 500 store-error response
and leaves the OTP store unchanged (the entry is still present), while a
successful update is followed by deletion of the OTP entry. -/
theorem C2_reset_preserves_otp_on_update_failure
    (email otp newPassword : String) (now : Nat) (store : OtpStore)
    (e : OtpEntry) (he : email ≠ "") (ho : otp ≠ "") (hp : newPassword ≠ "")
    (hget : jsGet store (jsToLower email) = some e)
    (hmatch : e.otp = otp) (hfresh : ¬ e.expiresAt < now) :
    resetPassword email otp newPassword now true false store =
      (⟨500, false, some "Failed to update password in database", none⟩,
        store) ∧
    (resetPassword email otp newPassword now true true store).2 =
      jsDelete store (jsToLower email) := by
  have hguard : ¬ (email = "" ∨ otp = "" ∨ newPassword = "") := by
    rintro (h | h | h)
    · exact he h
    · exact ho h
    · exact hp h
  constructor
  · simp [resetPassword, hguard, hget, hmatch, hfresh]
  · simp [resetPassword, hguard, hget, hmatch, hfresh]

/-- Witness for C2 at a concrete input. -/
theorem C2_reset_preserves_otp_on_update_failure_witness :
    resetPassword "a@x.com" "222222" "newpass1" 500 true false
        [("a@x.com", ⟨"222222", 1000⟩)] =
      (⟨500, false, some "Failed to update password in database", none⟩,
        [("a@x.com", ⟨"222222", 1000⟩)]) ∧
    (resetPassword "a@x.com" "222222" "newpass1" 500 true true
        [("a@x.com", ⟨"222222", 1000⟩)]).2 =
      jsDelete [("a@x.com", ⟨"222222", 1000⟩)] (jsToLower "a@x.com") :=
  C2_reset_preserves_otp_on_update_failure "a@x.com" "222222" "newpass1" 500
    [("a@x.com", ⟨"222222", 1000⟩)] ⟨"222222", 1000⟩
    (by decide) (by decide) (by decide) rfl rfl (by decide)

/-- C3 counterexample: `reset-password` does NOT report no-code-on-record
and code-mismatch distinctly: with no entry on record and with a
mismatching code on record it returns the identical 400 "Invalid OTP"
response, so the three rejectable states of the claim collapse to two. -/
theorem C3_counterexample :
    (resetPassword "a@x.com" "111111" "newpass1" 0 true true []).1 =
      (resetPassword "a@x.com" "111111" "newpass1" 0 true true
        [("a@x.com", ⟨"222222", 1000⟩)]).1 ∧
    (resetPassword "a@x.com" "111111" "newpass1" 0 true true []).1.error =
      some "Invalid OTP" :=
  ⟨rfl, rfl⟩

/-- C3 (amended): `reset-password` re-validates the submitted code but
distinguishes only two rejectable OTP states, not three: no code on record
and code mismatch both yield the 400 "Invalid OTP" response (store
unchanged), while a matching code past expiry yields the distinct 400
"OTP has expired" response and deletes the entry. -/
theorem C3_reset_two_rejectable_states (email otp newPassword : String)
    (now : Nat) (ue uo : Bool) (store : OtpStore)
    (he : email ≠ "") (ho : otp ≠ "") (hp : newPassword ≠ "") :
    (jsGet store (jsToLower email) = none →
      resetPassword email otp newPassword now ue uo store =
        (⟨400, false, some "Invalid OTP", none⟩, store)) ∧
    (∀ e : OtpEntry, jsGet store (jsToLower email) = some e → e.otp ≠ otp →
      resetPassword email otp newPassword now ue uo store =
        (⟨400, false, some "Invalid OTP", none⟩, store)) ∧
    (∀ e : OtpEntry, jsGet store (jsToLower email) = some e → e.otp = otp →
      e.expiresAt < now →
      resetPassword email otp newPassword now ue uo store =
        (⟨400, false, some "OTP has expired", none⟩,
          jsDelete store (jsToLower email))) := by
  have hguard : ¬ (email = "" ∨ otp = "" ∨ newPassword = "") := by
    rintro (h | h | h)
    · exact he h
    · exact ho h
    · exact hp h
  refine ⟨?_, ?_, ?_⟩
  · intro hget
    simp [resetPassword, hguard, hget]
  · intro e hget hne
    simp [resetPassword, hguard, hget, hne]
  · intro e hget heq hexp
    simp [resetPassword, hguard, hget, heq, hexp]

/-- Witness for the amended C3 at a concrete expired matching input. -/
theorem C3_reset_two_rejectable_states_witness :
    resetPassword "a@x.com" "222222" "newpass1" 2000 true true
        [("a@x.com", ⟨"222222", 1000⟩)] =
      (⟨400, false, some "OTP has expired", none⟩,
        jsDelete [("a@x.com", ⟨"222222", 1000⟩)] (jsToLower "a@x.com")) :=
  (C3_reset_two_rejectable_states "a@x.com" "222222" "newpass1" 2000 true true
      [("a@x.com", ⟨"222222", 1000⟩)] (by decide) (by decide) (by decide)).2.2
    ⟨"222222", 1000⟩ rfl rfl (by decide)

/-- C4: No expired OTP entry or session is ever accepted: for every store
state (swept by the Reaper or not), an OTP entry with `expiresAt < now` is
never answered with success by `verify-otp` or `reset-password` (for any
collaborator outcomes), and a session with `expires < now` is never
answered with success by `validate-session`. -/
theorem C4_expired_never_valid (key otp newPassword : String) (now : Nat)
    (ue uo : Bool) (store : OtpStore) (sessions : SessionStore) :
    (∀ e : OtpEntry, jsGet store (jsToLower key) = some e → e.expiresAt < now →
      (verifyOtp key otp now store).1.success = false) ∧
    (∀ e : OtpEntry, jsGet store (jsToLower key) = some e → e.expiresAt < now →
      (resetPassword key otp newPassword now ue uo store).1.success = false) ∧
    (∀ s : Session, jsGet sessions key = some s → s.expires < now →
      (validateSession key now sessions).1.success = false) := by
  refine ⟨?_, ?_, ?_⟩
  · intro e hget hexp
    by_cases hguard : key = "" ∨ otp = ""
    · simp [verifyOtp, hguard]
    · simp [verifyOtp, hguard, hget, hexp]
  · intro e hget hexp
    by_cases hguard : key = "" ∨ otp = "" ∨ newPassword = ""
    · simp [resetPassword, hguard]
    · by_cases hne : e.otp = otp
      · simp [resetPassword, hguard, hget, hne, hexp]
      · simp [resetPassword, hguard, hget, hne]
  · intro s hget hexp
    by_cases hk : key = ""
    · simp [validateSession, hk]
    · simp [validateSession, hk, hget, hexp]

/-- Witness for C4 at concrete expired inputs. -/
theorem C4_expired_never_valid_witness :
    (verifyOtp "a@x.com" "123456" 5000
      [("a@x.com", ⟨"123456", 100⟩)]).1.success = false ∧
    (resetPassword "a@x.com" "123456" "newpass1" 5000 true true
      [("a@x.com", ⟨"123456", 100⟩)]).1.success = false ∧
    (validateSession "session_0_abc" 9000
      [("session_0_abc", ⟨1, "a@x.com", 100, "user"⟩)]).1.success = false :=
  ⟨(C4_expired_never_valid "a@x.com" "123456" "newpass1" 5000 true true
      [("a@x.com", ⟨"123456", 100⟩)] []).1 ⟨"123456", 100⟩ rfl (by decide),
   (C4_expired_never_valid "a@x.com" "123456" "newpass1" 5000 true true
      [("a@x.com", ⟨"123456", 100⟩)] []).2.1 ⟨"123456", 100⟩ rfl (by decide),
   (C4_expired_never_valid "session_0_abc" "123456" "newpass1" 9000 true true
      [] [("session_0_abc", ⟨1, "a@x.com", 100, "user"⟩)]).2.2
     ⟨1, "a@x.com", 100, "user"⟩ rfl (by decide)⟩

/-- C5: With a present email and password, login against a nonexistent
email and login against an existing record whose hash comparison fails
return the very same response (status 401, the single generic message
"Invalid email or password") and both leave the session store unchanged. -/
theorem C5_login_uniform_failure (email password : String)
    (user : UserRecord) (compare : String → String → Bool)
    (now : Nat) (randSuffix : String) (sessions : SessionStore)
    (he : email ≠ "") (hp : password ≠ "")
    (hcmp : compare password user.password = false) :
    login email password none compare now randSuffix sessions =
      login email password (some user) compare now randSuffix sessions ∧
    login email password none compare now randSuffix sessions =
      (⟨401, false, some "Invalid email or password", none, none, none, none⟩,
        sessions) := by
  have hguard : ¬ (email = "" ∨ password = "") := by
    rintro (h | h)
    · exact he h
    · exact hp h
  constructor
  · simp [login, hguard, hcmp]
  · simp [login, hguard]

/-- Witness for C5 at a concrete record and comparison. -/
theorem C5_login_uniform_failure_witness :
    login "a@x.com" "wrongpw" none (fun _ _ => false) 0 "rnd" [] =
      login "a@x.com" "wrongpw" (some ⟨1, "Ann", "a@x.com", "HASH", "user"⟩)
        (fun _ _ => false) 0 "rnd" [] ∧
    login "a@x.com" "wrongpw" none (fun _ _ => false) 0 "rnd" [] =
      (⟨401, false, some "Invalid email or password", none, none, none, none⟩,
        []) :=
  C5_login_uniform_failure "a@x.com" "wrongpw"
    ⟨1, "Ann", "a@x.com", "HASH", "user"⟩ (fun _ _ => false) 0 "rnd" []
    (by decide) (by decide) rfl

/-- Store effect of a successful `send-otp` pass: whatever the delivery
outcome, the handler has already overwritten the entry for the normalized
email with the fresh code and `now + 10 min` expiry. -/
theorem sendOtp_store_effect (email otpGen : String) (t : Nat)
    (tc dOk : Bool) (store : OtpStore) (he : email ≠ "") :
    (sendOtp email otpGen t true tc dOk store).2 =
      jsSet store (jsToLower email)
        ⟨otpGen, t + OTP_EXPIRY_MINUTES * 60 * 1000⟩ := by
  cases tc <;> cases dOk <;> simp [sendOtp, he]

/-- Helper: `verify-otp` never succeeds when the stored code differs from
the submitted one (covers the missing-field, expired and mismatch
branches). -/
theorem verifyOtp_not_success_of_wrong_code (email otp : String) (now : Nat)
    (store : OtpStore) (e : OtpEntry)
    (hget : jsGet store (jsToLower email) = some e) (hne : e.otp ≠ otp) :
    (verifyOtp email otp now store).1.success = false := by
  by_cases hguard : email = "" ∨ otp = ""
  · simp [verifyOtp, hguard]
  · by_cases hexp : e.expiresAt < now
    · simp [verifyOtp, hguard, hget, hexp]
    · simp [verifyOtp, hguard, hget, hexp, hne]

/-- C6: Issuing two OTP codes for the same email in sequence (any delivery
outcomes) leaves exactly one live entry for that normalized email — the
second one, with its own fresh expiry — key-uniqueness of the store is
preserved, and the first code then fails verification whenever the two
codes differ. -/
theorem C6_second_issue_overwrites_first (email c1 c2 : String)
    (t1 t2 now : Nat) (b1 d1 b2 d2 : Bool) (store : OtpStore)
    (hnodup : nodupKeys store) (he : email ≠ "") (hne : c1 ≠ c2) :
    countKey
      (sendOtp email c2 t2 true b2 d2
        (sendOtp email c1 t1 true b1 d1 store).2).2 (jsToLower email) = 1 ∧
    nodupKeys
      (sendOtp email c2 t2 true b2 d2
        (sendOtp email c1 t1 true b1 d1 store).2).2 ∧
    jsGet
      (sendOtp email c2 t2 true b2 d2
        (sendOtp email c1 t1 true b1 d1 store).2).2 (jsToLower email) =
      some ⟨c2, t2 + OTP_EXPIRY_MINUTES * 60 * 1000⟩ ∧
    (verifyOtp email c1 now
      (sendOtp email c2 t2 true b2 d2
        (sendOtp email c1 t1 true b1 d1 store).2).2).1.success = false := by
  rw [sendOtp_store_effect email c1 t1 b1 d1 store he]
  rw [sendOtp_store_effect email c2 t2 b2 d2 _ he]
  have hnodup1 : nodupKeys (jsSet store (jsToLower email)
      ⟨c1, t1 + OTP_EXPIRY_MINUTES * 60 * 1000⟩) :=
    nodupKeys_jsSet _ _ _ hnodup
  refine ⟨countKey_jsSet_self _ _ _ hnodup1, nodupKeys_jsSet _ _ _ hnodup1,
    jsGet_jsSet_self _ _ _, ?_⟩
  exact verifyOtp_not_success_of_wrong_code email c1 now _
    ⟨c2, t2 + OTP_EXPIRY_MINUTES * 60 * 1000⟩ (jsGet_jsSet_self _ _ _)
    (fun hc => hne (by simpa using hc.symm))

/-- Witness for C6 at concrete codes. -/
theorem C6_second_issue_overwrites_first_witness :
    countKey
      (sendOtp "a@x.com" "654321" 10 true true true
        (sendOtp "a@x.com" "123456" 0 true false false []).2).2
      (jsToLower "a@x.com") = 1 ∧
    nodupKeys
      (sendOtp "a@x.com" "654321" 10 true true true
        (sendOtp "a@x.com" "123456" 0 true false false []).2).2 ∧
    jsGet
      (sendOtp "a@x.com" "654321" 10 true true true
        (sendOtp "a@x.com" "123456" 0 true false false []).2).2
      (jsToLower "a@x.com") =
      some ⟨"654321", 10 + OTP_EXPIRY_MINUTES * 60 * 1000⟩ ∧
    (verifyOtp "a@x.com" "123456" 20
      (sendOtp "a@x.com" "654321" 10 true true true
        (sendOtp "a@x.com" "123456" 0 true false false []).2).2).1.success =
      false :=
  C6_second_issue_overwrites_first "a@x.com" "123456" "654321" 0 10 20
    false false true true [] List.nodup_nil (by decide) (by decide)

/-- C7: With an existing user, `send-otp` succeeds (HTTP 200) for every
transporter configuration and delivery outcome, always storing the fresh
code; the raw code appears in the response body exactly when the gateway
is unconfigured or delivery fails, and in those executions the response is
marked with the `"Mock"` service tag. -/
theorem C7_sendOtp_gateway_fallback (email otpGen : String) (now : Nat)
    (tc dOk : Bool) (store : OtpStore) (he : email ≠ "") :
    (sendOtp email otpGen now true tc dOk store).1.status = 200 ∧
    (sendOtp email otpGen now true tc dOk store).1.success = true ∧
    (sendOtp email otpGen now true tc dOk store).2 =
      jsSet store (jsToLower email)
        ⟨otpGen, now + OTP_EXPIRY_MINUTES * 60 * 1000⟩ ∧
    ((sendOtp email otpGen now true tc dOk store).1.otp = some otpGen ↔
      ¬ (tc = true ∧ dOk = true)) ∧
    (¬ (tc = true ∧ dOk = true) →
      (sendOtp email otpGen now true tc dOk store).1.service = some "Mock") := by
  cases tc <;> cases dOk <;> simp [sendOtp, he]

/-- Witness for C7 with an unconfigured gateway. -/
theorem C7_sendOtp_gateway_fallback_witness :
    (sendOtp "a@x.com" "123456" 0 true false false []).1.status = 200 ∧
    (sendOtp "a@x.com" "123456" 0 true false false []).1.success = true ∧
    (sendOtp "a@x.com" "123456" 0 true false false []).2 =
      jsSet [] (jsToLower "a@x.com")
        ⟨"123456", 0 + OTP_EXPIRY_MINUTES * 60 * 1000⟩ ∧
    ((sendOtp "a@x.com" "123456" 0 true false false []).1.otp =
        some "123456" ↔ ¬ (false = true ∧ false = true)) ∧
    (¬ (false = true ∧ false = true) →
      (sendOtp "a@x.com" "123456" 0 true false false []).1.service =
        some "Mock") :=
  C7_sendOtp_gateway_fallback "a@x.com" "123456" 0 false false [] (by decide)

/-- C9: `logout` always returns the 200 success response for every session
id (present or absent); destroying twice leaves the same store as
destroying once; a `validate-session` call on the post-logout store for
that session id is never successful; and while the id stays absent from
the store, every further `validate-session` keeps failing with the 401
"Invalid session" response without changing the store. -/
theorem C9_logout_idempotent_always_succeeds (sessionId : String) (now : Nat)
    (sessions : SessionStore) :
    (logout sessionId sessions).1 =
      ⟨200, true, some "Logged out successfully"⟩ ∧
    (logout sessionId (logout sessionId sessions).2).2 =
      (logout sessionId sessions).2 ∧
    (validateSession sessionId now (logout sessionId sessions).2).1.success =
      false ∧
    (sessionId ≠ "" → ∀ st : SessionStore, jsGet st sessionId = none →
      validateSession sessionId now st =
        (⟨401, false, some "Invalid session", none, none, none, none, none⟩,
          st)) := by
  by_cases hid : sessionId = ""
  · subst hid
    refine ⟨rfl, rfl, ?_, fun h => absurd rfl h⟩
    simp [logout, validateSession]
  · refine ⟨?_, ?_, ?_, ?_⟩
    · simp [logout, hid]
    · simp [logout, hid, jsDelete_idem]
    · have hdel : (logout sessionId sessions).2 =
          jsDelete sessions sessionId := by simp [logout, hid]
      rw [hdel]
      simp [validateSession, hid, jsGet_jsDelete_self]
    · intro _ st hget
      simp [validateSession, hid, hget]

/-- Witness for C9 at a concrete session id. -/
theorem C9_logout_idempotent_always_succeeds_witness :
    (logout "session_0_rnd"
      [("session_0_rnd", ⟨1, "a@x.com", 86400000, "user"⟩)]).1 =
      ⟨200, true, some "Logged out successfully"⟩ ∧
    validateSession "session_0_rnd" 100 [] =
      (⟨401, false, some "Invalid session", none, none, none, none, none⟩,
        []) :=
  ⟨(C9_logout_idempotent_always_succeeds "session_0_rnd" 100
      [("session_0_rnd", ⟨1, "a@x.com", 86400000, "user"⟩)]).1,
   (C9_logout_idempotent_always_succeeds "session_0_rnd" 100
      [("session_0_rnd", ⟨1, "a@x.com", 86400000, "user"⟩)]).2.2.2
     (by decide) [] rfl⟩

/-- C10: In `reset-password` the code-match check precedes the expiry
check: on an expired entry, a mismatching code is rejected as
400 "Invalid OTP" with the entry NOT deleted, whereas the matching code is
rejected as 400 "OTP has expired" with the entry deleted — while
`verify-otp` on the same store and time rejects the same mismatching code
as expired (checking expiry first) and deletes the entry. -/
theorem C10_reset_checks_match_before_expiry (email wrong newPassword : String)
    (now : Nat) (ue uo : Bool) (store : OtpStore) (e : OtpEntry)
    (he : email ≠ "") (hw : wrong ≠ "") (hp : newPassword ≠ "")
    (hcode : e.otp ≠ "")
    (hget : jsGet store (jsToLower email) = some e)
    (hexp : e.expiresAt < now) (hne : e.otp ≠ wrong) :
    resetPassword email wrong newPassword now ue uo store =
      (⟨400, false, some "Invalid OTP", none⟩, store) ∧
    resetPassword email e.otp newPassword now ue uo store =
      (⟨400, false, some "OTP has expired", none⟩,
        jsDelete store (jsToLower email)) ∧
    verifyOtp email wrong now store =
      (⟨400, false, some "OTP has expired. Please request a new one.", none⟩,
        jsDelete store (jsToLower email)) := by
  have hguard1 : ¬ (email = "" ∨ wrong = "" ∨ newPassword = "") := by
    rintro (h | h | h)
    · exact he h
    · exact hw h
    · exact hp h
  have hguard2 : ¬ (email = "" ∨ e.otp = "" ∨ newPassword = "") := by
    rintro (h | h | h)
    · exact he h
    · exact hcode h
    · exact hp h
  have hguard3 : ¬ (email = "" ∨ wrong = "") := by
    rintro (h | h)
    · exact he h
    · exact hw h
  refine ⟨?_, ?_, ?_⟩
  · simp [resetPassword, hguard1, hget, hne]
  · simp [resetPassword, hguard2, hget, hexp]
  · simp [verifyOtp, hguard3, hget, hexp]

/-- Witness for C10 at a concrete expired entry. -/
theorem C10_reset_checks_match_before_expiry_witness :
    resetPassword "a@x.com" "111111" "newpass1" 2000 true true
        [("a@x.com", ⟨"222222", 1000⟩)] =
      (⟨400, false, some "Invalid OTP", none⟩,
        [("a@x.com", ⟨"222222", 1000⟩)]) ∧
    resetPassword "a@x.com" "222222" "newpass1" 2000 true true
        [("a@x.com", ⟨"222222", 1000⟩)] =
      (⟨400, false, some "OTP has expired", none⟩,
        jsDelete [("a@x.com", ⟨"222222", 1000⟩)] (jsToLower "a@x.com")) ∧
    verifyOtp "a@x.com" "111111" 2000 [("a@x.com", ⟨"222222", 1000⟩)] =
      (⟨400, false, some "OTP has expired. Please request a new one.", none⟩,
        jsDelete [("a@x.com", ⟨"222222", 1000⟩)] (jsToLower "a@x.com")) :=
  C10_reset_checks_match_before_expiry "a@x.com" "111111" "newpass1" 2000
    true true [("a@x.com", ⟨"222222", 1000⟩)] ⟨"222222", 1000⟩
    (by decide) (by decide) (by decide) (by decide) rfl (by decide) (by decide)

end FresherHub
